import Mathlib

/-!
A shallow embedding of the core logic of the MIL-STD-704 Power Quality
Compliance Checker (`src/script.js`): the static bus-profile registry and
the compliance evaluator `runComplianceCheck`, with theorems checking the
specification's claims against it.

Modelling choices:
* JS numbers are modelled as rationals (`ℚ`); every value in the program and
  the claims is exactly representable.
* A measurement field that `parseNumber` normalizes to `null` (absent DOM
  element, empty string, non-numeric input) is modelled as `none`; a parsed
  numeric value `v` is `some v`.
* `Number.prototype.toFixed` is modelled by `toFixed` below, following the
  ECMAScript algorithm (split off the sign, then pick the integer `n`
  minimising the distance of `n / 10 ^ f` to the value, ties to the larger
  `n`), which is exact on the rationals used here.
* A thrown JS exception is modelled by `Except.error`. The only throw the
  evaluator can produce is a `TypeError` from reading a property of
  `undefined` (unknown registry key, or a `null` `frequencyRange` on a
  profile claiming `hasFrequency`). A signalled NotFound condition, which
  the specification mentions but the code never produces, is a separate
  constructor so the two failure modes stay distinguishable.
* The DOM rendering functions (`renderOverallStatus`, `renderSummary`,
  `renderChecklist`) are presentation glue outside the core; the evaluator
  here returns the data they would render: the list of checks pushed onto
  `checks` in source order, plus `overallPass = checks.every(c => c.pass)`.
-/

/-- A JS runtime failure of the evaluator. `typeError` models an uncaught
`TypeError` thrown by a property access on `undefined`; `notFound` models a
signalled NotFound condition (present in the error vocabulary so that the
two can be told apart; the code never produces it). -/
inductive JsError where
  | typeError : JsError
  | notFound : JsError
deriving DecidableEq

/-- One entry of the `busProfiles` table (lines 26–49 of `src/script.js`). -/
structure BusProfile where
  label : String
  nominalVoltage : ℚ
  steadyVoltageRange : ℚ × ℚ
  ripplePercentMax : ℚ
  uvDipPercentMax : ℚ
  uvDurationMaxMs : ℚ
  ovSurgePercentMax : ℚ
  ovDurationMaxMs : ℚ
  hasFrequency : Bool
  frequencyRange : Option (ℚ × ℚ)
deriving DecidableEq

/-- The `"28vdc"` profile of the registry. -/
def profile28vdc : BusProfile :=
  { label := "28 VDC Main Bus (Illustrative)"
    nominalVoltage := 28
    steadyVoltageRange := (22, 29)
    ripplePercentMax := 5
    uvDipPercentMax := 20
    uvDurationMaxMs := 50
    ovSurgePercentMax := 20
    ovDurationMaxMs := 50
    hasFrequency := false
    frequencyRange := none }

/-- The `"115vac400"` profile of the registry. -/
def profile115vac400 : BusProfile :=
  { label := "115 VAC, 400 Hz (Illustrative)"
    nominalVoltage := 115
    steadyVoltageRange := (108, 118)
    ripplePercentMax := 5
    uvDipPercentMax := 20
    uvDurationMaxMs := 50
    ovSurgePercentMax := 20
    ovDurationMaxMs := 50
    hasFrequency := true
    frequencyRange := some (395, 405) }

/-- The profile registry: `busProfiles[busKey]`, where an unknown key gives
`undefined` (`none`). -/
def busProfiles (busKey : String) : Option BusProfile :=
  if busKey = "28vdc" then some profile28vdc
  else if busKey = "115vac400" then some profile115vac400
  else none

/-- The seven optional measurement values, in the state `parseNumber` leaves
them: `none` when the input was absent, empty or non-numeric. -/
structure Measurement where
  steadyVoltage : Option ℚ
  steadyFrequency : Option ℚ
  ripple : Option ℚ
  uvDipPercent : Option ℚ
  uvDipDuration : Option ℚ
  ovSurgePercent : Option ℚ
  ovSurgeDuration : Option ℚ
deriving DecidableEq

/-- One entry pushed onto the `checks` array. -/
structure CheckResult where
  label : String
  pass : Bool
  detail : String
deriving DecidableEq

/-- The checks list together with `overallPass`. -/
structure ComplianceReport where
  checks : List CheckResult
  overallPass : Bool
deriving DecidableEq

deriving instance DecidableEq for Except

/-- `Number.prototype.toFixed` restricted to a non-negative rational already
scaled to an integer count of the last digit: renders `n` with a decimal
point placed `f` digits from the right (zero-padding as needed). -/
def toFixedNat (n : ℕ) (f : ℕ) : String :=
  if f = 0 then Nat.repr n
  else
    let s := Nat.repr n
    let s := if s.length < f + 1 then
      String.mk (List.replicate (f + 1 - s.length) '0') ++ s else s
    s.take (s.length - f) ++ "." ++ s.drop (s.length - f)

/-- `x.toFixed(f)` on an exact rational: split off the sign, round
`|x| * 10 ^ f` to the nearest integer with ties upward (the ECMAScript
"pick the larger n" rule), and print with `f` digits after the point.
With `a / d` the reduced form of `|x|`, the rounded integer
`⌊a * 10 ^ f / d + 1 / 2⌋` is computed as `(2 * a * 10 ^ f + d) / (2 * d)`
in natural-number division, which is exact. -/
def toFixed (x : ℚ) (f : ℕ) : String :=
  let a : ℕ := x.num.natAbs
  let n : ℕ := (2 * a * 10 ^ f + x.den) / (2 * x.den)
  (if x.num < 0 then "-" else "") ++ toFixedNat n f

/-- Check 1, "Steady-state voltage" (lines 100–117). -/
def voltageCheck (profile : BusProfile) (m : Measurement) : CheckResult :=
  match m.steadyVoltage with
  | some v =>
    let vMin := profile.steadyVoltageRange.1
    let vMax := profile.steadyVoltageRange.2
    { label := "Steady-State Voltage"
      pass := decide (vMin ≤ v ∧ v ≤ vMax)
      detail := "Measured: " ++ toFixed v 2 ++ " V, Allowed: " ++
        toFixed vMin 1 ++ "–" ++ toFixed vMax 1 ++ " V" }
  | none =>
    { label := "Steady-State Voltage"
      pass := false
      detail := "No measured voltage provided." }

/-- Check 2, "Frequency (AC only)" (lines 120–139). Contributes no check at
all when `hasFrequency` is false; throws a `TypeError` when a frequency was
measured but `profile.frequencyRange` is `null` (the destructuring
`const [fMin, fMax] = profile.frequencyRange`). -/
def frequencyChecks (profile : BusProfile) (m : Measurement) :
    Except JsError (List CheckResult) :=
  if profile.hasFrequency then
    match m.steadyFrequency with
    | some f =>
      match profile.frequencyRange with
      | some (fMin, fMax) =>
        .ok [{ label := "Steady-State Frequency"
               pass := decide (fMin ≤ f ∧ f ≤ fMax)
               detail := "Measured: " ++ toFixed f 2 ++ " Hz, Allowed: " ++
                 toFixed fMin 1 ++ "–" ++ toFixed fMax 1 ++ " Hz" }]
      | none => .error JsError.typeError
    | none =>
      .ok [{ label := "Steady-State Frequency"
             pass := false
             detail := "No measured frequency provided for AC bus." }]
  else .ok []

/-- Check 3, "Ripple / Distortion" (lines 142–163). -/
def rippleCheck (profile : BusProfile) (m : Measurement) : CheckResult :=
  let lbl := if profile.hasFrequency then "AC Distortion / THD"
    else "DC Ripple Voltage"
  match m.ripple with
  | some r =>
    { label := lbl
      pass := decide (r ≤ profile.ripplePercentMax)
      detail := "Measured: " ++ toFixed r 2 ++ " %, Allowed: ≤ " ++
        toFixed profile.ripplePercentMax 1 ++ " %" }
  | none =>
    { label := lbl
      pass := false
      detail := "No ripple / distortion value provided." }

/-- Check 4, "Undervoltage dip" (lines 166–188). -/
def uvCheck (profile : BusProfile) (m : Measurement) : CheckResult :=
  match m.uvDipPercent, m.uvDipDuration with
  | some pc, some dur =>
    { label := "Transient Undervoltage"
      pass := decide (pc ≤ profile.uvDipPercentMax) &&
        decide (dur ≤ profile.uvDurationMaxMs)
      detail := "Measured: " ++ toFixed pc 1 ++ " % for " ++ toFixed dur 0 ++
        " ms, Allowed: ≤ " ++ toFixed profile.uvDipPercentMax 1 ++
        " % for ≤ " ++ toFixed profile.uvDurationMaxMs 0 ++ " ms" }
  | _, _ =>
    { label := "Transient Undervoltage"
      pass := false
      detail := "Undervoltage dip percent and/or duration not provided." }

/-- Check 5, "Overvoltage surge" (lines 191–213). -/
def ovCheck (profile : BusProfile) (m : Measurement) : CheckResult :=
  match m.ovSurgePercent, m.ovSurgeDuration with
  | some pc, some dur =>
    { label := "Transient Overvoltage"
      pass := decide (pc ≤ profile.ovSurgePercentMax) &&
        decide (dur ≤ profile.ovDurationMaxMs)
      detail := "Measured: " ++ toFixed pc 1 ++ " % for " ++ toFixed dur 0 ++
        " ms, Allowed: ≤ " ++ toFixed profile.ovSurgePercentMax 1 ++
        " % for ≤ " ++ toFixed profile.ovDurationMaxMs 0 ++ " ms" }
  | _, _ =>
    { label := "Transient Overvoltage"
      pass := false
      detail := "Overvoltage surge percent and/or duration not provided." }

/-- The `checks` array built by `runComplianceCheck` for a known profile, in
source push order: voltage, frequency (AC only), ripple, undervoltage,
overvoltage. -/
def runChecks (profile : BusProfile) (m : Measurement) :
    Except JsError (List CheckResult) :=
  match frequencyChecks profile m with
  | .error e => .error e
  | .ok freq =>
    .ok (voltageCheck profile m :: freq ++
      [rippleCheck profile m, uvCheck profile m, ovCheck profile m])

/-- The evaluator (lines 82–230, minus rendering): look the profile up in
the registry — an unknown key leaves `profile` `undefined` and the first
property access on it throws a `TypeError` — run the five checks, and
derive `overallPass = checks.every((c) => c.pass)` (line 216). -/
def runComplianceCheck (busKey : String) (m : Measurement) :
    Except JsError ComplianceReport :=
  match busProfiles busKey with
  | none => .error JsError.typeError
  | some profile =>
    match runChecks profile m with
    | .error e => .error e
    | .ok checks => .ok { checks := checks, overallPass := checks.all (fun c => c.pass) }

/-- The successful result of an evaluation, if any. -/
def okReport (r : Except JsError ComplianceReport) : Option ComplianceReport :=
  match r with
  | .ok report => some report
  | .error _ => none

/-- The all-absent measurement set (every field empty or non-numeric). -/
def mEmpty : Measurement :=
  { steadyVoltage := none, steadyFrequency := none, ripple := none
    uvDipPercent := none, uvDipDuration := none
    ovSurgePercent := none, ovSurgeDuration := none }

/-- The specification's worked example for the `"28vdc"` profile:
`steadyVoltage = 27.8` (entered exactly, `mkRat 139 5`), `ripple = 3`,
`uvDipPercent = 10`, `uvDipDuration = 20`, `ovSurgePercent = 10`,
`ovSurgeDuration = 20`, no frequency entered. -/
def mExample28vdc : Measurement :=
  { steadyVoltage := some (mkRat 139 5), steadyFrequency := none
    ripple := some 3
    uvDipPercent := some 10, uvDipDuration := some 20
    ovSurgePercent := some 10, ovSurgeDuration := some 20 }

/-- The failing `CheckResult` pushed when no steady voltage is provided. -/
def voltageMissing : CheckResult :=
  { label := "Steady-State Voltage", pass := false
    detail := "No measured voltage provided." }

/-- The failing `CheckResult` pushed when an AC bus has no measured
frequency. -/
def frequencyMissing : CheckResult :=
  { label := "Steady-State Frequency", pass := false
    detail := "No measured frequency provided for AC bus." }

/-- The failing ripple `CheckResult` on an AC profile. -/
def rippleMissingAC : CheckResult :=
  { label := "AC Distortion / THD", pass := false
    detail := "No ripple / distortion value provided." }

/-- The failing ripple `CheckResult` on a DC profile. -/
def rippleMissingDC : CheckResult :=
  { label := "DC Ripple Voltage", pass := false
    detail := "No ripple / distortion value provided." }

/-- The failing undervoltage `CheckResult` when a value is missing. -/
def uvMissing : CheckResult :=
  { label := "Transient Undervoltage", pass := false
    detail := "Undervoltage dip percent and/or duration not provided." }

/-- The failing overvoltage `CheckResult` when a value is missing. -/
def ovMissing : CheckResult :=
  { label := "Transient Overvoltage", pass := false
    detail := "Overvoltage surge percent and/or duration not provided." }

/-! ## Helper lemmas -/

/-- The measurement entered in `mExample28vdc` is the decimal 27.8. -/
theorem mkRat_example_eq : (mkRat 139 5 : ℚ) = 27.8 := by
  norm_num [Rat.mkRat_eq_div]

/-- The steady-state voltage check carries its label in both branches. -/
theorem voltageCheck_label (p : BusProfile) (m : Measurement) :
    (voltageCheck p m).label = "Steady-State Voltage" := by
  cases h : m.steadyVoltage <;> simp [voltageCheck, h]

/-- The ripple check's label depends only on `hasFrequency`. -/
theorem rippleCheck_label (p : BusProfile) (m : Measurement) :
    (rippleCheck p m).label =
      if p.hasFrequency then "AC Distortion / THD" else "DC Ripple Voltage" := by
  cases h : m.ripple <;> simp [rippleCheck, h]

/-- The undervoltage check carries its label in both branches. -/
theorem uvCheck_label (p : BusProfile) (m : Measurement) :
    (uvCheck p m).label = "Transient Undervoltage" := by
  cases h : m.uvDipPercent <;> cases h2 : m.uvDipDuration <;>
    simp [uvCheck, h, h2]

/-- The overvoltage check carries its label in both branches. -/
theorem ovCheck_label (p : BusProfile) (m : Measurement) :
    (ovCheck p m).label = "Transient Overvoltage" := by
  cases h : m.ovSurgePercent <;> cases h2 : m.ovSurgeDuration <;>
    simp [ovCheck, h, h2]

/-- On a DC profile the frequency block contributes nothing. -/
theorem frequencyChecks_dc (p : BusProfile) (m : Measurement)
    (h : p.hasFrequency = false) : frequencyChecks p m = .ok [] := by
  simp [frequencyChecks, h]

/-- On an AC profile with no measured frequency the block contributes the
fixed failing check. -/
theorem frequencyChecks_ac_none (p : BusProfile) (m : Measurement)
    (h : p.hasFrequency = true) (h2 : m.steadyFrequency = none) :
    frequencyChecks p m = .ok [frequencyMissing] := by
  simp [frequencyChecks, h, h2, frequencyMissing]

/-- On an AC profile with a measured frequency and a present range the block
contributes the evaluated check. -/
theorem frequencyChecks_ac_some (p : BusProfile) (m : Measurement)
    (f lo hi : ℚ) (h : p.hasFrequency = true) (h2 : m.steadyFrequency = some f)
    (h3 : p.frequencyRange = some (lo, hi)) :
    frequencyChecks p m = .ok
      [{ label := "Steady-State Frequency"
         pass := decide (lo ≤ f ∧ f ≤ hi)
         detail := "Measured: " ++ toFixed f 2 ++ " Hz, Allowed: " ++
           toFixed lo 1 ++ "–" ++ toFixed hi 1 ++ " Hz" }] := by
  simp [frequencyChecks, h, h2, h3]

/-- A successful run is the voltage check, the frequency block's checks, and
the ripple, undervoltage and overvoltage checks, in that order. -/
theorem runChecks_shape (p : BusProfile) (m : Measurement)
    (cs : List CheckResult) (h : runChecks p m = .ok cs) :
    ∃ freq, frequencyChecks p m = .ok freq ∧
      cs = voltageCheck p m :: freq ++
        [rippleCheck p m, uvCheck p m, ovCheck p m] := by
  unfold runChecks at h
  cases hf : frequencyChecks p m with
  | error e => rw [hf] at h; cases h
  | ok freq =>
    rw [hf] at h
    refine ⟨freq, rfl, ?_⟩
    cases h
    rfl

/-- Every check of the frequency block carries the frequency label. -/
theorem frequencyChecks_labels (p : BusProfile) (m : Measurement)
    (freq : List CheckResult) (h : frequencyChecks p m = .ok freq) :
    ∀ c ∈ freq, c.label = "Steady-State Frequency" := by
  cases hp : p.hasFrequency with
  | false => rw [frequencyChecks_dc p m hp] at h; cases h; simp
  | true =>
    cases h2 : m.steadyFrequency with
    | none =>
      rw [frequencyChecks_ac_none p m hp h2] at h
      cases h
      simp [frequencyMissing]
    | some f =>
      cases h3 : p.frequencyRange with
      | none => unfold frequencyChecks at h; simp [hp, h2, h3] at h
      | some r =>
        rw [frequencyChecks_ac_some p m f r.1 r.2 hp h2 (by rw [h3])] at h
        cases h
        simp

/-- Both registry profiles have a frequency range whenever `hasFrequency`
is set (so the frequency destructuring cannot throw for them). -/
theorem registry_wellformed (busKey : String) (p : BusProfile)
    (hp : busProfiles busKey = some p) :
    p.hasFrequency = true → p.frequencyRange.isSome := by
  unfold busProfiles at hp
  split at hp
  · cases hp; decide
  · split at hp
    · cases hp; decide
    · cases hp

/-- For a profile whose frequency range is present whenever `hasFrequency`
is set, the evaluator always returns a checks list. -/
theorem runChecks_total (p : BusProfile) (m : Measurement)
    (hwf : p.hasFrequency = true → p.frequencyRange.isSome) :
    ∃ cs, runChecks p m = .ok cs := by
  unfold runChecks
  cases hp : p.hasFrequency with
  | false => rw [frequencyChecks_dc p m hp]; exact ⟨_, rfl⟩
  | true =>
    cases h2 : m.steadyFrequency with
    | none => rw [frequencyChecks_ac_none p m hp h2]; exact ⟨_, rfl⟩
    | some f =>
      have := hwf hp
      cases h3 : p.frequencyRange with
      | none => rw [h3] at this; simp at this
      | some r =>
        rw [frequencyChecks_ac_some p m f r.1 r.2 hp h2 (by rw [h3])]
        exact ⟨_, rfl⟩

/-! ## Claims -/

/-- C1: for every bus key and measurement set for which the evaluator
produces a `ComplianceReport`, the report's overall pass flag is true iff
every `CheckResult` present in the report has `pass = true` (logical AND
over exactly the checks in the report). -/
theorem C1_overall_pass_iff (busKey : String) (m : Measurement)
    (r : ComplianceReport) (h : runComplianceCheck busKey m = .ok r) :
    r.overallPass = true ↔ ∀ c ∈ r.checks, c.pass = true := by
  cases hp : busProfiles busKey with
  | none => simp only [runComplianceCheck, hp] at h; exact (Except.noConfusion h)
  | some p =>
    cases hc : runChecks p m with
    | error e =>
      simp only [runComplianceCheck, hp, hc] at h
      exact (Except.noConfusion h)
    | ok cs =>
      simp only [runComplianceCheck, hp, hc, Except.ok.injEq] at h
      rw [← h]
      simp [List.all_eq_true]

/-- C1 witness: the 28 VDC profile with nothing entered yields the
four failing checks and an overall fail. -/
theorem C1_overall_pass_iff_witness :
    (ComplianceReport.mk [voltageMissing, rippleMissingDC, uvMissing, ovMissing]
        false).overallPass = true ↔
      ∀ c ∈ (ComplianceReport.mk
          [voltageMissing, rippleMissingDC, uvMissing, ovMissing] false).checks,
        c.pass = true :=
  C1_overall_pass_iff "28vdc" mEmpty _ (by decide)

/-- C2 counterexample: `"foo"` is not a key of the registry, and evaluating
it fails with the modelled uncaught `TypeError` (the property access on the
`undefined` profile), which is distinct from a signalled NotFound
condition; no report is produced. -/
theorem C2_counterexample :
    busProfiles "foo" = none ∧
    runComplianceCheck "foo" mEmpty = .error JsError.typeError ∧
    JsError.typeError ≠ JsError.notFound ∧
    okReport (runComplianceCheck "foo" mEmpty) = none := by
  refine ⟨by decide, by decide, by decide, by decide⟩

/-- C2 (amended): for every bus-type identifier that is not a key of the
registry, evaluation fails — by throwing the uncaught `TypeError` that the
property access on the `undefined` lookup result raises, not by signalling
a NotFound condition — and no `ComplianceReport` is produced or rendered. -/
theorem C2_unknown_key_throws (busKey : String) (m : Measurement)
    (h : busProfiles busKey = none) :
    runComplianceCheck busKey m = .error JsError.typeError ∧
    okReport (runComplianceCheck busKey m) = none := by
  constructor <;> simp [runComplianceCheck, okReport, h]

/-- C2 witness: the amended statement instantiated at key `"foo"`. -/
theorem C2_unknown_key_throws_witness :
    runComplianceCheck "foo" mEmpty = .error JsError.typeError ∧
    okReport (runComplianceCheck "foo" mEmpty) = none :=
  C2_unknown_key_throws "foo" mEmpty (by decide)

/-- C3: the steady-state voltage check (always present in a produced
report) passes iff the measured value lies within the profile's inclusive
steady voltage range; both boundary values pass (when the range is
nonempty), and values 0.01 below the minimum or 0.01 above the maximum
fail. -/
theorem C3_steady_voltage (p : BusProfile) (m : Measurement) :
    (∀ v, m.steadyVoltage = some v →
      ((voltageCheck p m).pass = true ↔
        p.steadyVoltageRange.1 ≤ v ∧ v ≤ p.steadyVoltageRange.2)) ∧
    (∀ cs, runChecks p m = .ok cs → voltageCheck p m ∈ cs) ∧
    (p.steadyVoltageRange.1 ≤ p.steadyVoltageRange.2 →
      (voltageCheck p
        { m with steadyVoltage := some p.steadyVoltageRange.1 }).pass = true ∧
      (voltageCheck p
        { m with steadyVoltage := some p.steadyVoltageRange.2 }).pass = true) ∧
    (voltageCheck p
      { m with steadyVoltage := some (p.steadyVoltageRange.1 - 1/100) }).pass
        = false ∧
    (voltageCheck p
      { m with steadyVoltage := some (p.steadyVoltageRange.2 + 1/100) }).pass
        = false := by
  refine ⟨?_, ?_, ?_, ?_, ?_⟩
  · intro v hv
    simp [voltageCheck, hv]
  · intro cs h
    obtain ⟨freq, -, hcs⟩ := runChecks_shape p m cs h
    rw [hcs]
    exact List.mem_cons_self _ _
  · intro hle
    constructor <;> simp [voltageCheck, hle]
  · simp [voltageCheck]
  · simp [voltageCheck]

/-- C3 witness: 27.8 V on the 28 VDC profile satisfies the iff, and the
lower boundary 22 V passes. -/
theorem C3_steady_voltage_witness :
    ((voltageCheck profile28vdc
        { mEmpty with steadyVoltage := some (mkRat 139 5) }).pass = true ↔
      profile28vdc.steadyVoltageRange.1 ≤ mkRat 139 5 ∧
        mkRat 139 5 ≤ profile28vdc.steadyVoltageRange.2) ∧
    (voltageCheck profile28vdc
      { mEmpty with steadyVoltage := some profile28vdc.steadyVoltageRange.1
      }).pass = true :=
  ⟨(C3_steady_voltage profile28vdc
      { mEmpty with steadyVoltage := some (mkRat 139 5) }).1 (mkRat 139 5) rfl,
   ((C3_steady_voltage profile28vdc mEmpty).2.2.1 (by decide)).1⟩

/-- C4: for every registry profile and every measurement set, the evaluator
completes without throwing and produces a report; each absent measurement
field's check appears in that report with `pass = false` and its
explanatory detail; the only omission is the frequency check on a profile
with `hasFrequency = false`. -/
theorem C4_missing_fields (busKey : String) (p : BusProfile) (m : Measurement)
    (hp : busProfiles busKey = some p) :
    ∃ r, runComplianceCheck busKey m = .ok r ∧
      (m.steadyVoltage = none → voltageMissing ∈ r.checks) ∧
      (p.hasFrequency = true → m.steadyFrequency = none →
        frequencyMissing ∈ r.checks) ∧
      (p.hasFrequency = false →
        ∀ c ∈ r.checks, c.label ≠ "Steady-State Frequency") ∧
      (m.ripple = none →
        (if p.hasFrequency then rippleMissingAC else rippleMissingDC)
          ∈ r.checks) ∧
      (m.uvDipPercent = none ∨ m.uvDipDuration = none →
        uvMissing ∈ r.checks) ∧
      (m.ovSurgePercent = none ∨ m.ovSurgeDuration = none →
        ovMissing ∈ r.checks) := by
  have hwf := registry_wellformed busKey p hp
  obtain ⟨cs, hcs⟩ := runChecks_total p m hwf
  obtain ⟨freq, hfc, hshape⟩ := runChecks_shape p m cs hcs
  refine ⟨{ checks := cs, overallPass := cs.all (fun c => c.pass) },
    ?_, ?_, ?_, ?_, ?_, ?_, ?_⟩
  · simp only [runComplianceCheck, hp, hcs]
  · intro hv
    have : voltageCheck p m = voltageMissing := by
      simp [voltageCheck, hv, voltageMissing]
    simp [hshape, this]
  · intro hac hmf
    rw [frequencyChecks_ac_none p m hac hmf] at hfc
    injection hfc with h2
    simp [hshape, ← h2]
  · intro hdc
    rw [frequencyChecks_dc p m hdc] at hfc
    injection hfc with h2
    intro c hc
    rw [hshape, ← h2] at hc
    simp only [List.nil_append] at hc
    cases hc with
    | head => simp [voltageCheck_label]
    | tail _ hc1 =>
      cases hc1 with
      | head => simp [rippleCheck_label, hdc]
      | tail _ hc2 =>
        cases hc2 with
        | head => simp [uvCheck_label]
        | tail _ hc3 =>
          cases hc3 with
          | head => simp [ovCheck_label]
          | tail _ hc4 => cases hc4
  · intro hr
    have : rippleCheck p m =
        if p.hasFrequency then rippleMissingAC else rippleMissingDC := by
      cases hf : p.hasFrequency <;>
        simp [rippleCheck, hr, hf, rippleMissingAC, rippleMissingDC]
    simp [hshape, ← this]
  · intro hu
    have : uvCheck p m = uvMissing := by
      rcases hu with h | h
      · simp [uvCheck, h, uvMissing]
      · cases hpc : m.uvDipPercent <;> simp [uvCheck, hpc, h, uvMissing]
    simp [hshape, ← this]
  · intro ho
    have : ovCheck p m = ovMissing := by
      rcases ho with h | h
      · simp [ovCheck, h, ovMissing]
      · cases hpc : m.ovSurgePercent <;> simp [ovCheck, hpc, h, ovMissing]
    simp [hshape, ← this]

/-- C4 witness: the AC profile with every field left empty. -/
theorem C4_missing_fields_witness :
    ∃ r, runComplianceCheck "115vac400" mEmpty = .ok r ∧
      (mEmpty.steadyVoltage = none → voltageMissing ∈ r.checks) ∧
      (profile115vac400.hasFrequency = true → mEmpty.steadyFrequency = none →
        frequencyMissing ∈ r.checks) ∧
      (profile115vac400.hasFrequency = false →
        ∀ c ∈ r.checks, c.label ≠ "Steady-State Frequency") ∧
      (mEmpty.ripple = none →
        (if profile115vac400.hasFrequency then rippleMissingAC
          else rippleMissingDC) ∈ r.checks) ∧
      (mEmpty.uvDipPercent = none ∨ mEmpty.uvDipDuration = none →
        uvMissing ∈ r.checks) ∧
      (mEmpty.ovSurgePercent = none ∨ mEmpty.ovSurgeDuration = none →
        ovMissing ∈ r.checks) :=
  C4_missing_fields "115vac400" profile115vac400 mEmpty (by decide)

/-- C5: a profile with `hasFrequency = false` yields a report with no
frequency check at all, whatever was measured; a profile with
`hasFrequency = true` (and its range present, as in the registry) yields
exactly one frequency check, passing iff the measured frequency lies in
the inclusive range, and failing when none was measured. -/
theorem C5_frequency (p : BusProfile) (m : Measurement) (cs : List CheckResult)
    (h : runChecks p m = .ok cs) :
    (p.hasFrequency = false →
      cs.filter (fun c => c.label == "Steady-State Frequency") = []) ∧
    (∀ lo hi, p.hasFrequency = true → p.frequencyRange = some (lo, hi) →
      ∃ c, cs.filter (fun c => c.label == "Steady-State Frequency") = [c] ∧
        (c.pass = true ↔ ∃ f, m.steadyFrequency = some f ∧ lo ≤ f ∧ f ≤ hi) ∧
        (m.steadyFrequency = none → c.pass = false)) := by
  obtain ⟨freq, hfc, hshape⟩ := runChecks_shape p m cs h
  constructor
  · intro hdc
    rw [frequencyChecks_dc p m hdc] at hfc
    injection hfc with h2
    rw [hshape, ← h2]
    simp [List.filter_cons, voltageCheck_label, rippleCheck_label,
      uvCheck_label, ovCheck_label, hdc]
  · intro lo hi hac hrange
    cases hmf : m.steadyFrequency with
    | none =>
      rw [frequencyChecks_ac_none p m hac hmf] at hfc
      injection hfc with h2
      refine ⟨frequencyMissing, ?_, ?_, ?_⟩
      · rw [hshape, ← h2]
        simp [List.filter_cons, voltageCheck_label, rippleCheck_label,
          uvCheck_label, ovCheck_label, hac, frequencyMissing]
      · simp [frequencyMissing, hmf]
      · intro hn
        simp [frequencyMissing]
    | some f =>
      rw [frequencyChecks_ac_some p m f lo hi hac hmf hrange] at hfc
      injection hfc with h2
      refine ⟨{ label := "Steady-State Frequency"
                pass := decide (lo ≤ f ∧ f ≤ hi)
                detail := "Measured: " ++ toFixed f 2 ++ " Hz, Allowed: " ++
                  toFixed lo 1 ++ "–" ++ toFixed hi 1 ++ " Hz" }, ?_, ?_, ?_⟩
      · rw [hshape, ← h2]
        simp [List.filter_cons, voltageCheck_label, rippleCheck_label,
          uvCheck_label, ovCheck_label, hac]
      · simp [hmf, decide_eq_true_iff]
      · intro hn
        exact (Option.noConfusion hn)

/-- C5 witness: 402 Hz on the 115 VAC / 400 Hz profile gives exactly one
frequency check, and it passes. -/
theorem C5_frequency_witness :
    ∃ c, List.filter (fun c => c.label == "Steady-State Frequency")
        [voltageMissing,
         { label := "Steady-State Frequency", pass := true
           detail := "Measured: 402.00 Hz, Allowed: 395.0–405.0 Hz" },
         rippleMissingAC, uvMissing, ovMissing] = [c] ∧
      (c.pass = true ↔ ∃ f, ({ mEmpty with steadyFrequency := some 402
        } : Measurement).steadyFrequency = some f ∧ 395 ≤ f ∧ f ≤ 405) ∧
      (({ mEmpty with steadyFrequency := some 402
        } : Measurement).steadyFrequency = none → c.pass = false) :=
  (C5_frequency profile115vac400 { mEmpty with steadyFrequency := some 402 }
    [voltageMissing,
     { label := "Steady-State Frequency", pass := true
       detail := "Measured: 402.00 Hz, Allowed: 395.0–405.0 Hz" },
     rippleMissingAC, uvMissing, ovMissing]
    (by decide)).2 395 405 (by decide) (by decide)

/-- C6: the transient undervoltage check passes iff both dip percent and
dip duration are provided and each is at most its profile maximum
(inclusive); with either missing it is the fixed failing check; the
overvoltage check is symmetric; both checks are always present in a
produced report. -/
theorem C6_transients (p : BusProfile) (m : Measurement) :
    ((uvCheck p m).pass = true ↔
      ∃ pc dur, m.uvDipPercent = some pc ∧ m.uvDipDuration = some dur ∧
        pc ≤ p.uvDipPercentMax ∧ dur ≤ p.uvDurationMaxMs) ∧
    (m.uvDipPercent = none ∨ m.uvDipDuration = none →
      uvCheck p m = uvMissing) ∧
    ((ovCheck p m).pass = true ↔
      ∃ pc dur, m.ovSurgePercent = some pc ∧ m.ovSurgeDuration = some dur ∧
        pc ≤ p.ovSurgePercentMax ∧ dur ≤ p.ovDurationMaxMs) ∧
    (m.ovSurgePercent = none ∨ m.ovSurgeDuration = none →
      ovCheck p m = ovMissing) ∧
    (∀ cs, runChecks p m = .ok cs → uvCheck p m ∈ cs ∧ ovCheck p m ∈ cs) := by
  refine ⟨?_, ?_, ?_, ?_, ?_⟩
  · cases hpc : m.uvDipPercent <;> cases hdur : m.uvDipDuration <;>
      simp [uvCheck, hpc, hdur, decide_eq_true_iff, and_assoc]
  · intro hu
    rcases hu with hpc | hdur
    · simp [uvCheck, hpc, uvMissing]
    · cases hpc : m.uvDipPercent <;> simp [uvCheck, hpc, hdur, uvMissing]
  · cases hpc : m.ovSurgePercent <;> cases hdur : m.ovSurgeDuration <;>
      simp [ovCheck, hpc, hdur, decide_eq_true_iff, and_assoc]
  · intro ho
    rcases ho with hpc | hdur
    · simp [ovCheck, hpc, ovMissing]
    · cases hpc : m.ovSurgePercent <;> simp [ovCheck, hpc, hdur, ovMissing]
  · intro cs h
    obtain ⟨freq, -, hshape⟩ := runChecks_shape p m cs h
    rw [hshape]
    constructor <;> simp

/-- C6 witness: the worked 28 VDC measurements make both transient checks
pass, and both appear in the report. -/
theorem C6_transients_witness :
    (uvCheck profile28vdc mExample28vdc).pass = true ∧
    (ovCheck profile28vdc mExample28vdc).pass = true :=
  ⟨(C6_transients profile28vdc mExample28vdc).1.mpr
      ⟨10, 20, rfl, rfl, by decide, by decide⟩,
   (C6_transients profile28vdc mExample28vdc).2.2.1.mpr
      ⟨10, 20, rfl, rfl, by decide, by decide⟩⟩

/-- C7 counterexample: the voltage check's allowed bounds are voltages but
are rendered with one decimal place (`toFixed(1)` in the source), not the
claimed two; the ripple check's measured value is a percentage but is
rendered with two decimal places (`toFixed(2)`), not the claimed one. -/
theorem C7_counterexample :
    (voltageCheck profile28vdc mExample28vdc).detail =
      "Measured: 27.80 V, Allowed: 22.0–29.0 V" ∧
    toFixed profile28vdc.steadyVoltageRange.1 2 = "22.00" ∧
    (voltageCheck profile28vdc mExample28vdc).detail ≠
      "Measured: 27.80 V, Allowed: 22.00–29.00 V" ∧
    (rippleCheck profile28vdc mExample28vdc).detail =
      "Measured: 3.00 %, Allowed: ≤ 5.0 %" ∧
    toFixed 3 1 = "3.0" ∧
    (rippleCheck profile28vdc mExample28vdc).detail ≠
      "Measured: 3.0 %, Allowed: ≤ 5.0 %" := by
  refine ⟨by decide, by decide, by decide, by decide, by decide, by decide⟩

/-- C7 (amended): every detail string reports the measured value(s) and the
allowed range or threshold; the precision actually used is: measured
voltages and frequencies 2 decimal places but allowed voltage/frequency
bounds 1 decimal place; the measured ripple/distortion percentage
2 decimal places; transient percentages and all allowed percent thresholds
1 decimal place; durations 0 decimal places. -/
theorem C7_detail_format (p : BusProfile) (m : Measurement) :
    (∀ v, m.steadyVoltage = some v → (voltageCheck p m).detail =
      "Measured: " ++ toFixed v 2 ++ " V, Allowed: " ++
        toFixed p.steadyVoltageRange.1 1 ++ "–" ++
        toFixed p.steadyVoltageRange.2 1 ++ " V") ∧
    (∀ f lo hi, p.hasFrequency = true → m.steadyFrequency = some f →
      p.frequencyRange = some (lo, hi) →
      frequencyChecks p m = .ok
        [{ label := "Steady-State Frequency"
           pass := decide (lo ≤ f ∧ f ≤ hi)
           detail := "Measured: " ++ toFixed f 2 ++ " Hz, Allowed: " ++
             toFixed lo 1 ++ "–" ++ toFixed hi 1 ++ " Hz" }]) ∧
    (∀ r, m.ripple = some r → (rippleCheck p m).detail =
      "Measured: " ++ toFixed r 2 ++ " %, Allowed: ≤ " ++
        toFixed p.ripplePercentMax 1 ++ " %") ∧
    (∀ pc dur, m.uvDipPercent = some pc → m.uvDipDuration = some dur →
      (uvCheck p m).detail =
        "Measured: " ++ toFixed pc 1 ++ " % for " ++ toFixed dur 0 ++
          " ms, Allowed: ≤ " ++ toFixed p.uvDipPercentMax 1 ++
          " % for ≤ " ++ toFixed p.uvDurationMaxMs 0 ++ " ms") ∧
    (∀ pc dur, m.ovSurgePercent = some pc → m.ovSurgeDuration = some dur →
      (ovCheck p m).detail =
        "Measured: " ++ toFixed pc 1 ++ " % for " ++ toFixed dur 0 ++
          " ms, Allowed: ≤ " ++ toFixed p.ovSurgePercentMax 1 ++
          " % for ≤ " ++ toFixed p.ovDurationMaxMs 0 ++ " ms") := by
  refine ⟨?_, ?_, ?_, ?_, ?_⟩
  · intro v hv
    simp [voltageCheck, hv]
  · intro f lo hi hac hmf hrange
    exact frequencyChecks_ac_some p m f lo hi hac hmf hrange
  · intro r hr
    simp [rippleCheck, hr]
  · intro pc dur h1 h2
    simp [uvCheck, h1, h2]
  · intro pc dur h1 h2
    simp [ovCheck, h1, h2]

/-- C7 witness: the amended format instantiated on the worked example. -/
theorem C7_detail_format_witness :
    (voltageCheck profile28vdc mExample28vdc).detail =
      "Measured: " ++ toFixed (mkRat 139 5) 2 ++ " V, Allowed: " ++
        toFixed profile28vdc.steadyVoltageRange.1 1 ++ "–" ++
        toFixed profile28vdc.steadyVoltageRange.2 1 ++ " V" :=
  (C7_detail_format profile28vdc mExample28vdc).1 (mkRat 139 5) rfl

/-- C8 counterexample: `hasFrequency` is false on the 28 VDC profile, so
the worked example's report contains four checks, not five as claimed. -/
theorem C8_counterexample :
    (okReport (runComplianceCheck "28vdc" mExample28vdc)).map
        (fun r => r.checks.length) = some 4 ∧
    (okReport (runComplianceCheck "28vdc" mExample28vdc)).map
        (fun r => r.checks.length) ≠ some 5 := by
  refine ⟨by decide, by decide⟩

/-- C8 (amended): evaluating profile "28vdc" with steadyVoltage = 27.8,
ripple = 3, uvDipPercent = 10, uvDipDuration = 20, ovSurgePercent = 10,
ovSurgeDuration = 20 produces a report whose four checks (steady voltage,
DC ripple, transient undervoltage, transient overvoltage — no frequency
check exists on a DC profile) all pass, and the overall verdict is PASS. -/
theorem C8_example_passes :
    (okReport (runComplianceCheck "28vdc" mExample28vdc)).map
        (fun r => (r.checks.map (fun c => (c.label, c.pass)), r.overallPass)) =
      some ([("Steady-State Voltage", true), ("DC Ripple Voltage", true),
             ("Transient Undervoltage", true), ("Transient Overvoltage", true)],
            true) := by decide

/-- C9: a produced report's length and label sequence depend only on the
profile's `hasFrequency` flag, never on which measurements were provided:
five labels in fixed order on an AC profile, four on a DC profile. -/
theorem C9_labels (p : BusProfile) (m : Measurement) (cs : List CheckResult)
    (h : runChecks p m = .ok cs) :
    (p.hasFrequency = true →
      cs.map (fun c => c.label) =
        ["Steady-State Voltage", "Steady-State Frequency",
         "AC Distortion / THD", "Transient Undervoltage",
         "Transient Overvoltage"]) ∧
    (p.hasFrequency = false →
      cs.map (fun c => c.label) =
        ["Steady-State Voltage", "DC Ripple Voltage",
         "Transient Undervoltage", "Transient Overvoltage"]) := by
  obtain ⟨freq, hfc, hshape⟩ := runChecks_shape p m cs h
  constructor
  · intro hac
    cases hmf : m.steadyFrequency with
    | none =>
      rw [frequencyChecks_ac_none p m hac hmf] at hfc
      injection hfc with h2
      rw [hshape, ← h2]
      simp [voltageCheck_label, rippleCheck_label, uvCheck_label,
        ovCheck_label, hac, frequencyMissing]
    | some f =>
      cases hr : p.frequencyRange with
      | none =>
        unfold frequencyChecks at hfc
        simp [hac, hmf, hr] at hfc
      | some r =>
        rw [frequencyChecks_ac_some p m f r.1 r.2 hac hmf (by rw [hr])] at hfc
        injection hfc with h2
        rw [hshape, ← h2]
        simp [voltageCheck_label, rippleCheck_label, uvCheck_label,
          ovCheck_label, hac]
  · intro hdc
    rw [frequencyChecks_dc p m hdc] at hfc
    injection hfc with h2
    rw [hshape, ← h2]
    simp [voltageCheck_label, rippleCheck_label, uvCheck_label,
      ovCheck_label, hdc]

/-- C9 witness: the AC profile with nothing measured still yields the five
fixed labels. -/
theorem C9_labels_witness :
    ([voltageMissing, frequencyMissing, rippleMissingAC, uvMissing,
        ovMissing].map (fun c => c.label)) =
      ["Steady-State Voltage", "Steady-State Frequency",
       "AC Distortion / THD", "Transient Undervoltage",
       "Transient Overvoltage"] :=
  (C9_labels profile115vac400 mEmpty
    [voltageMissing, frequencyMissing, rippleMissingAC, uvMissing, ovMissing]
    (by decide)).1 rfl

/-- C10: the ripple and transient checks enforce only an upper bound: every
provided value at or below the profile maximum passes, zero and negative
values included. -/
theorem C10_no_lower_bound (p : BusProfile) (m : Measurement) :
    (∀ r, m.ripple = some r → r ≤ p.ripplePercentMax →
      (rippleCheck p m).pass = true) ∧
    (∀ pc dur, m.uvDipPercent = some pc → m.uvDipDuration = some dur →
      pc ≤ p.uvDipPercentMax → dur ≤ p.uvDurationMaxMs →
      (uvCheck p m).pass = true) ∧
    (∀ pc dur, m.ovSurgePercent = some pc → m.ovSurgeDuration = some dur →
      pc ≤ p.ovSurgePercentMax → dur ≤ p.ovDurationMaxMs →
      (ovCheck p m).pass = true) := by
  refine ⟨?_, ?_, ?_⟩
  · intro r hr hle
    simp [rippleCheck, hr, hle]
  · intro pc dur h1 h2 h3 h4
    simp [uvCheck, h1, h2, h3, h4]
  · intro pc dur h1 h2 h3 h4
    simp [ovCheck, h1, h2, h3, h4]

/-- C10 witness: a negative ripple value (−1 %) on the 28 VDC profile
passes the ripple check. -/
theorem C10_no_lower_bound_witness :
    (rippleCheck profile28vdc
      { mEmpty with ripple := some (mkRat (-1) 1) }).pass = true :=
  (C10_no_lower_bound profile28vdc
    { mEmpty with ripple := some (mkRat (-1) 1) }).1
    (mkRat (-1) 1) rfl (by decide)
